import Mathlib

/-!
Verification of the load-test repository's design spec.

The repository's only source file is `load-test/locustfile.py`, a Locust
scenario script.  The spec additionally describes a `LoadShapeController`
(a traffic-shape `tick` function over a staged `Schedule`); that code is
not under `src/`, so it is modelled here from the spec's own algorithm
description.  The scenario script (`ProductQueryUser` and its subclasses)
is embedded faithfully from the Python source: each Locust task becomes a
function from its random draws to the `Request` it issues, with Python's
`random.randint` / `random.choice` modelled as range-respecting functions
of an arbitrary natural-number draw.
-/

namespace LoadTest

/-- Modelled from the spec: the `Stage` record of the `LoadShapeController`
component, which is described by the spec but absent from `src/`:
`{ end_time : duration, target_users : integer ≥ 0, spawn_rate : number > 0 }`.
Durations and rates are modelled as rationals, user counts as naturals. -/
structure Stage where
  end_time : ℚ
  target_users : ℕ
  spawn_rate : ℚ
deriving Repr, DecidableEq

/-- Modelled from the spec: a `Schedule` is a sequence of `Stage`s. -/
abbrev Schedule := List Stage

/-- The Schedule invariant from the spec's data model: `end_time` values
strictly increase across the sequence. -/
def ScheduleWF (s : Schedule) : Prop :=
  List.Pairwise (fun a b => a.end_time < b.end_time) s

instance (s : Schedule) : Decidable (ScheduleWF s) :=
  List.instDecidablePairwise s

/-- Modelled from the spec: the configuration error with which the
Schedule constructor rejects a misconfigured stage sequence. -/
inductive ConfigError
  | nonIncreasingEndTimes
deriving Repr, DecidableEq

/-- Modelled from the spec: the fail-fast Schedule constructor, which is
absent from `src/`.  It rejects a candidate stage sequence whose
`end_time` values are not strictly increasing. -/
def mkSchedule (stages : List Stage) : Except ConfigError Schedule :=
  if ScheduleWF stages then .ok stages else .error .nonIncreasingEndTimes

/-- Modelled from the spec: `tick`, the one operation of the
`LoadShapeController`, absent from `src/`: scan the Schedule in order and
return the `(target_users, spawn_rate)` of the first Stage whose
`end_time` is strictly greater than `elapsed`; if no such stage exists,
return `none` (the terminal signal). -/
def tick : Schedule → ℚ → Option (ℕ × ℚ)
  | [], _ => none
  | st :: rest, elapsed =>
    if elapsed < st.end_time then some (st.target_users, st.spawn_rate)
    else tick rest elapsed

/-- Modelled from the spec: the controller holds an immutable Schedule
and no other state. -/
structure LoadShapeController where
  stages : Schedule
deriving Repr, DecidableEq

/-- Modelled from the spec: `tick` as an explicitly state-passing
operation on the controller, returning the output together with the
controller state after the call.  The controller "performs no writes",
so the state it returns is the state it was given. -/
def tickS (c : LoadShapeController) (elapsed : ℚ) :
    Option (ℕ × ℚ) × LoadShapeController :=
  (tick c.stages elapsed, c)

/-- The concrete six-stage surge-and-decay schedule used by the spec's
concrete scenario: boundaries 10, 120, 300, 480, 600, 720; targets
1_000_000, 1_000_000, 600_000, 300_000, 50_000, 0; spawn rates
200_000, 1, 50_000, 20_000, 10_000, 10_000. -/
def surgeSchedule : Schedule :=
  [⟨10, 1000000, 200000⟩, ⟨120, 1000000, 1⟩, ⟨300, 600000, 50000⟩,
   ⟨480, 300000, 20000⟩, ⟨600, 50000, 10000⟩, ⟨720, 0, 10000⟩]

/-! ### Basic lemmas about `tick` -/

/-- `tick` returns the image of the first stage whose `end_time` strictly
exceeds the elapsed time, in `List.find?` form. -/
theorem tick_eq_find? (s : Schedule) (t : ℚ) :
    tick s t = (s.find? fun st => decide (t < st.end_time)).map
      (fun st => (st.target_users, st.spawn_rate)) := by
  induction s with
  | nil => rfl
  | cons st rest ih =>
    by_cases h : t < st.end_time
    · simp [tick, List.find?, h]
    · simp [tick, List.find?, h, ih]

/-- `tick` returns the terminal signal exactly when every stage's
`end_time` is at or below the elapsed time. -/
theorem tick_eq_none_iff (s : Schedule) (t : ℚ) :
    tick s t = none ↔ ∀ st ∈ s, st.end_time ≤ t := by
  induction s with
  | nil => simp [tick]
  | cons st rest ih =>
    by_cases h : t < st.end_time
    · simp only [tick, if_pos h, List.mem_cons]
      constructor
      · intro hc; exact absurd hc (by simp)
      · intro hall; exact absurd (hall st (Or.inl rfl)) (not_le.mpr h)
    · simp only [tick, if_neg h, ih, List.mem_cons]
      constructor
      · intro hall st hst
        rcases hst with rfl | hmem
        · exact le_of_not_lt h
        · exact hall st hmem
      · intro hall st hmem
        exact hall st (Or.inr hmem)

/-- In a well-formed schedule every stage's `end_time` is at most the last
stage's `end_time`. -/
theorem end_time_le_getLast (s : Schedule) (hs : ScheduleWF s) (stl : Stage)
    (hlast : s.getLast? = some stl) : ∀ st ∈ s, st.end_time ≤ stl.end_time := by
  intro st hmem
  obtain ⟨i, hi, heq⟩ := List.mem_iff_getElem.mp hmem
  have hlen : s.length - 1 < s.length := by omega
  rw [List.getLast?_eq_getElem?, List.getElem?_eq_getElem hlen] at hlast
  have hstl : s[s.length - 1] = stl := Option.some.inj hlast
  rcases Nat.lt_or_ge i (s.length - 1) with hlt | hge
  · have := (List.pairwise_iff_getElem.mp hs) i (s.length - 1) hi hlen hlt
    rw [heq, hstl] at this
    exact le_of_lt this
  · have : i = s.length - 1 := by omega
    subst this
    rw [heq] at hstl
    rw [hstl]

/-- On a well-formed schedule, querying `tick` exactly at stage `i`'s
`end_time` yields the stage after position `i`, if any. -/
theorem tick_at_getElem (s : Schedule) (hs : ScheduleWF s) (i : ℕ)
    (hi : i < s.length) :
    tick s (s.get ⟨i, hi⟩).end_time
      = ((s.drop (i + 1)).head?).map (fun st => (st.target_users, st.spawn_rate)) := by
  induction s generalizing i with
  | nil => simp at hi
  | cons a rest ih =>
    have hcons := List.pairwise_cons.mp hs
    cases i with
    | zero =>
      cases rest with
      | nil => simp [tick]
      | cons b rest' =>
        have hab : a.end_time < b.end_time := hcons.1 b (List.mem_cons_self b rest')
        simp [tick, lt_irrefl, hab, List.get]
    | succ j =>
      have hj : j < rest.length := Nat.lt_of_succ_lt_succ hi
      have ha : a.end_time < (rest.get ⟨j, hj⟩).end_time :=
        hcons.1 _ (List.get_mem rest j hj)
      have hstep :
          tick (a :: rest) ((rest.get ⟨j, hj⟩).end_time)
            = tick rest ((rest.get ⟨j, hj⟩).end_time) := by
        show (if (rest.get ⟨j, hj⟩).end_time < a.end_time
              then some (a.target_users, a.spawn_rate)
              else tick rest ((rest.get ⟨j, hj⟩).end_time))
            = tick rest ((rest.get ⟨j, hj⟩).end_time)
        rw [if_neg (not_lt.mpr (le_of_lt ha))]
      calc tick (a :: rest) (((a :: rest).get ⟨j + 1, hi⟩).end_time)
          = tick rest ((rest.get ⟨j, hj⟩).end_time) := hstep
        _ = ((rest.drop (j + 1)).head?).map
              (fun st => (st.target_users, st.spawn_rate)) := ih hcons.2 j hj

/-! ### Claim theorems for the LoadShapeController -/

/-- C1: for every schedule and non-negative elapsed time, `tick` returns
the pair of the first stage in order whose `end_time` strictly exceeds
`elapsed` (`none` when there is no such stage); in particular any elapsed
strictly below the first stage's `end_time` yields the first stage's pair,
and any elapsed at or past the last stage's `end_time` yields the
terminal signal. -/
theorem tick_first_stage_exceeding (s : Schedule) (t : ℚ) (_ht : 0 ≤ t) :
    tick s t = (s.find? fun st => decide (t < st.end_time)).map
        (fun st => (st.target_users, st.spawn_rate))
  ∧ (∀ st₀ rest, s = st₀ :: rest → t < st₀.end_time →
        tick s t = some (st₀.target_users, st₀.spawn_rate))
  ∧ (ScheduleWF s → ∀ stl, s.getLast? = some stl → stl.end_time ≤ t →
        tick s t = none) := by
  refine ⟨tick_eq_find? s t, ?_, ?_⟩
  · rintro st₀ rest rfl h
    simp [tick, h]
  · intro hs stl hlast hle
    rw [tick_eq_none_iff]
    intro st hmem
    exact le_trans (end_time_le_getLast s hs stl hlast st hmem) hle

/-- Witness for C1 at the concrete surge schedule. -/
theorem tick_first_stage_exceeding_witness :
    tick surgeSchedule 5
        = ((surgeSchedule.find? fun st => decide ((5 : ℚ) < st.end_time)).map
            (fun st => (st.target_users, st.spawn_rate)))
  ∧ tick surgeSchedule 5 = some (1000000, 200000)
  ∧ tick surgeSchedule 725 = none := by
  refine ⟨(tick_first_stage_exceeding surgeSchedule 5 (by decide)).1, ?_, ?_⟩
  · exact (tick_first_stage_exceeding surgeSchedule 5 (by decide)).2.1
      ⟨10, 1000000, 200000⟩ _ rfl (by decide)
  · exact (tick_first_stage_exceeding surgeSchedule 725 (by decide)).2.2
      (by decide) ⟨720, 0, 10000⟩ rfl (by decide)

/-- C2: on a well-formed schedule, `tick` at exactly `stage[i].end_time`
returns stage `i+1`'s pair when `i` is not last, and the terminal signal
when `i` is last — never stage `i`'s own pair. -/
theorem tick_boundary_next_stage (s : Schedule) (hs : ScheduleWF s) (i : ℕ)
    (hi : i < s.length) :
    (∀ h : i + 1 < s.length,
        tick s (s.get ⟨i, hi⟩).end_time
          = some ((s.get ⟨i + 1, h⟩).target_users, (s.get ⟨i + 1, h⟩).spawn_rate))
  ∧ (i + 1 = s.length → tick s (s.get ⟨i, hi⟩).end_time = none) := by
  constructor
  · intro h
    rw [tick_at_getElem s hs i hi, List.head?_drop, List.getElem?_eq_getElem h]
    simp [List.get_eq_getElem]
  · intro h
    rw [tick_at_getElem s hs i hi, List.drop_eq_nil_of_le (le_of_eq h.symm)]
    rfl

/-- Witness for C2 at the concrete surge schedule: elapsed exactly 10
(stage 0's boundary) yields stage 1's pair, and elapsed exactly 720 (the
last boundary) yields the terminal signal. -/
theorem tick_boundary_next_stage_witness :
    tick surgeSchedule 10 = some (1000000, 1)
  ∧ tick surgeSchedule 720 = none := by
  constructor
  · exact (tick_boundary_next_stage surgeSchedule (by decide) 0 (by decide)).1
      (by decide)
  · exact (tick_boundary_next_stage surgeSchedule (by decide) 5 (by decide)).2
      (by decide)

/-- C3: `tick` is a total function (it produces a result for every
schedule and elapsed value, raising no error), and on the empty schedule
it returns the terminal signal for every input. -/
theorem tick_total_and_empty_none :
    (∀ (s : Schedule) (t : ℚ), ∃ r : Option (ℕ × ℚ), tick s t = r)
  ∧ (∀ t : ℚ, tick ([] : Schedule) t = none) :=
  ⟨fun s t => ⟨tick s t, rfl⟩, fun _ => rfl⟩

/-- C4: the concrete scenario values of the spec on the six-stage surge
schedule. -/
theorem tick_surge_scenario :
    tick surgeSchedule 5 = some (1000000, 200000)
  ∧ tick surgeSchedule 10 = some (1000000, 1)
  ∧ tick surgeSchedule 150 = some (600000, 50000)
  ∧ tick surgeSchedule 725 = none := by
  decide

/-- C5: `tick` is idempotent for a fixed elapsed value and mutates no
state: the state-passing form returns the controller unchanged, and a
second call on the post-call state returns the identical result. -/
theorem tickS_idempotent_pure :
    ∀ (c : LoadShapeController) (t : ℚ),
      (tickS c t).1 = (tickS ((tickS c t).2) t).1 ∧ (tickS c t).2 = c :=
  fun _ _ => ⟨rfl, rfl⟩

/-- C6: the Schedule constructor fails fast with a configuration error on
every stage sequence whose `end_time`s are not strictly increasing, and
every successfully constructed schedule satisfies the strict-increase
invariant. -/
theorem mkSchedule_fail_fast (stages : List Stage) :
    (¬ ScheduleWF stages → mkSchedule stages = .error .nonIncreasingEndTimes)
  ∧ (∀ sch, mkSchedule stages = .ok sch → ScheduleWF sch) := by
  constructor
  · intro h
    simp [mkSchedule, h]
  · intro sch hok
    by_cases h : ScheduleWF stages
    · simp only [mkSchedule, if_pos h] at hok
      cases hok
      exact h
    · simp [mkSchedule, h] at hok

/-- Witness for C6: a duplicated boundary is rejected; the surge schedule
is accepted and well-formed. -/
theorem mkSchedule_fail_fast_witness :
    mkSchedule [⟨10, 5, 1⟩, ⟨10, 5, 1⟩] = .error .nonIncreasingEndTimes
  ∧ ScheduleWF surgeSchedule := by
  constructor
  · exact (mkSchedule_fail_fast [⟨10, 5, 1⟩, ⟨10, 5, 1⟩]).1 (by decide)
  · exact (mkSchedule_fail_fast surgeSchedule).2 surgeSchedule rfl

/-! ### Embedding of the Locust scenario script `load-test/locustfile.py`

Each Locust task method becomes a function from its random draws (and,
for the detail task, the collected `product_ids` state) to the `Request`
it issues.  Python's `random.randint(lo, hi)` (inclusive bounds) and
`random.choice(l)` are modelled as functions of an arbitrary
natural-number draw that always land in the proper range. -/

/-- HTTP methods named by the spec's external-interface description. -/
inductive Method
  | GET
  | POST
  | DELETE
deriving Repr, DecidableEq

/-- A query-string value: numeric or string. -/
inductive QVal
  | nat (n : ℕ)
  | str (s : String)
deriving Repr, DecidableEq

/-- The URL paths targeted by the scenario script: the product listing
endpoint `/api/v1/products` and the product detail endpoint
`/api/v1/products/{productId}`. -/
inductive UrlPath
  | products
  | productDetail (productId : ℕ)
deriving Repr, DecidableEq

/-- An HTTP request as issued by a `self.client.<method>(...)` call in
the scenario script. -/
structure Request where
  method : Method
  path : UrlPath
  query : List (String × QVal)
deriving Repr, DecidableEq

/-- Model of Python's `random.randint(lo, hi)` (inclusive on both ends)
as a function of an arbitrary draw `d`. -/
def randint (lo hi d : ℕ) : ℕ := lo + d % (hi - lo + 1)

/-- Model of Python's `random.choice(l)` as a function of an arbitrary
draw `d`. -/
def choice {α : Type} (l : List α) (dflt : α) (d : ℕ) : α :=
  l.getD (d % l.length) dflt

/-- `self.brand_ids` as set in `on_start`: `list(range(1, 101))`,
i.e. brand IDs 1..100. -/
def brand_ids : List ℕ := List.range' 1 100

/-- The sort options drawn by the cache-test tasks. -/
def sort_options : List String := ["latest", "price_asc", "likes_desc"]

/-- Task `get_products_all_latest`: full listing, newest first,
`page = random.randint(0, 10)`. -/
def get_products_all_latest (dpage : ℕ) : Request :=
  { method := .GET, path := .products,
    query := [("sort", .str "latest"), ("page", .nat (randint 0 10 dpage)),
              ("size", .nat 20)] }

/-- Task `get_products_all_likes_desc`. -/
def get_products_all_likes_desc (dpage : ℕ) : Request :=
  { method := .GET, path := .products,
    query := [("sort", .str "likes_desc"), ("page", .nat (randint 0 10 dpage)),
              ("size", .nat 20)] }

/-- Task `get_products_all_price_asc`. -/
def get_products_all_price_asc (dpage : ℕ) : Request :=
  { method := .GET, path := .products,
    query := [("sort", .str "price_asc"), ("page", .nat (randint 0 10 dpage)),
              ("size", .nat 20)] }

/-- Task `get_products_by_brand_latest`:
`brand_id = random.choice(self.brand_ids)`, `page = random.randint(0, 5)`. -/
def get_products_by_brand_latest (dbrand dpage : ℕ) : Request :=
  { method := .GET, path := .products,
    query := [("brandId", .nat (choice brand_ids 0 dbrand)),
              ("sort", .str "latest"), ("page", .nat (randint 0 5 dpage)),
              ("size", .nat 20)] }

/-- Task `get_products_by_brand_likes_desc`. -/
def get_products_by_brand_likes_desc (dbrand dpage : ℕ) : Request :=
  { method := .GET, path := .products,
    query := [("brandId", .nat (choice brand_ids 0 dbrand)),
              ("sort", .str "likes_desc"), ("page", .nat (randint 0 5 dpage)),
              ("size", .nat 20)] }

/-- Task `get_products_by_brand_price_asc`. -/
def get_products_by_brand_price_asc (dbrand dpage : ℕ) : Request :=
  { method := .GET, path := .products,
    query := [("brandId", .nat (choice brand_ids 0 dbrand)),
              ("sort", .str "price_asc"), ("page", .nat (randint 0 5 dpage)),
              ("size", .nat 20)] }

/-- Task `get_products_first_page_cached`: sort drawn from
`sort_options`, page fixed to 0. -/
def get_products_first_page_cached (dsort : ℕ) : Request :=
  { method := .GET, path := .products,
    query := [("sort", .str (choice sort_options "" dsort)), ("page", .nat 0),
              ("size", .nat 20)] }

/-- Task `get_products_other_pages_not_cached`: sort drawn from
`sort_options`, `page = random.randint(1, 10)`. -/
def get_products_other_pages_not_cached (dsort dpage : ℕ) : Request :=
  { method := .GET, path := .products,
    query := [("sort", .str (choice sort_options "" dsort)),
              ("page", .nat (randint 1 10 dpage)), ("size", .nat 20)] }

/-- Task `get_products_by_brand_first_page_cached`: brand drawn from
`brand_ids`, sort drawn from `sort_options`, page fixed to 0. -/
def get_products_by_brand_first_page_cached (dbrand dsort : ℕ) : Request :=
  { method := .GET, path := .products,
    query := [("brandId", .nat (choice brand_ids 0 dbrand)),
              ("sort", .str (choice sort_options "" dsort)), ("page", .nat 0),
              ("size", .nat 20)] }

/-- Task `get_product_detail_cached`: a product id drawn from the first
50 collected `product_ids` when any were collected, otherwise
`random.randint(1, 1000)`. -/
def get_product_detail_cached (product_ids : List ℕ) (d : ℕ) : Request :=
  { method := .GET,
    path := .productDetail
      (if product_ids.isEmpty then randint 1 1000 d
       else choice (product_ids.take 50) 0 d),
    query := [] }

/-- Task `get_product_detail_not_cached`:
`product_id = random.randint(1000, 100000)`. -/
def get_product_detail_not_cached (d : ℕ) : Request :=
  { method := .GET, path := .productDetail (randint 1000 100000 d),
    query := [] }

/-- Task `get_products_deep_pagination`: `page = random.randint(20, 50)`,
sort drawn from `sort_options`. -/
def get_products_deep_pagination (dpage dsort : ℕ) : Request :=
  { method := .GET, path := .products,
    query := [("sort", .str (choice sort_options "" dsort)),
              ("page", .nat (randint 20 50 dpage)), ("size", .nat 20)] }

/-- The start-up request issued by `_load_initial_data`:
`GET /api/v1/products?size=100`. -/
def initial_products_request : Request :=
  { method := .GET, path := .products, query := [("size", .nat 100)] }

/-- The `@tag` decorator arguments of `get_products_first_page_cached`. -/
def tags_get_products_first_page_cached : List String :=
  ["cache", "list", "cache_hit"]

/-- The `@tag` decorator arguments of
`get_products_other_pages_not_cached`. -/
def tags_get_products_other_pages_not_cached : List String :=
  ["cache", "list", "cache_miss"]

/-- The `@tag` decorator arguments of
`get_products_by_brand_first_page_cached`. -/
def tags_get_products_by_brand_first_page_cached : List String :=
  ["cache", "list", "cache_hit"]

/-- The requests the scenario code can issue: one constructor per
`self.client.<method>` call site in `locustfile.py`, over all random
draws and collected product-id state.  The composite tasks of
`IndexPerformanceUser`, `CachePerformanceUser` and `MixedLoadUser` only
invoke these same task methods, so they issue no further requests. -/
inductive Emits : Request → Prop
  | initial_load : Emits initial_products_request
  | all_latest (d : ℕ) : Emits (get_products_all_latest d)
  | all_likes_desc (d : ℕ) : Emits (get_products_all_likes_desc d)
  | all_price_asc (d : ℕ) : Emits (get_products_all_price_asc d)
  | by_brand_latest (db dp : ℕ) : Emits (get_products_by_brand_latest db dp)
  | by_brand_likes_desc (db dp : ℕ) :
      Emits (get_products_by_brand_likes_desc db dp)
  | by_brand_price_asc (db dp : ℕ) :
      Emits (get_products_by_brand_price_asc db dp)
  | first_page_cached (ds : ℕ) : Emits (get_products_first_page_cached ds)
  | other_pages_not_cached (ds dp : ℕ) :
      Emits (get_products_other_pages_not_cached ds dp)
  | by_brand_first_page_cached (db ds : ℕ) :
      Emits (get_products_by_brand_first_page_cached db ds)
  | detail_cached (ids : List ℕ) (d : ℕ) :
      Emits (get_product_detail_cached ids d)
  | detail_not_cached (d : ℕ) : Emits (get_product_detail_not_cached d)
  | deep_pagination (dp ds : ℕ) : Emits (get_products_deep_pagination dp ds)

/-- Look up a numeric query parameter of a request. -/
def Request.queryNat (r : Request) (key : String) : Option ℕ :=
  match r.query.find? (fun kv => kv.1 == key) with
  | some kv =>
    match kv.2 with
    | .nat n => some n
    | .str _ => none
  | none => none

/-- `random.choice(self.brand_ids)` always lands in 1..100. -/
theorem choice_brand_ids_bounds (d : ℕ) :
    1 ≤ choice brand_ids 0 d ∧ choice brand_ids 0 d ≤ 100 := by
  have hval : choice brand_ids 0 d = 1 + d % 100 := by
    unfold choice brand_ids
    have hm : d % (List.range' 1 100).length < (List.range' 1 100).length := by
      simp only [List.length_range']
      exact Nat.mod_lt _ (by norm_num)
    rw [List.getD_eq_getElem?_getD, List.getElem?_eq_getElem hm]
    simp [List.getElem_range'_1]
  rw [hval]
  have := Nat.mod_lt d (show 0 < 100 by norm_num)
  omega

/-- The requests of the product-query locustfile itself are all plain
HTTP GETs against the product listing or product detail path. -/
theorem scenario_requests_get_products_only (r : Request) (h : Emits r) :
    r.method = Method.GET
  ∧ (r.path = UrlPath.products
      ∨ ∃ pid, r.path = UrlPath.productDetail pid) := by
  cases h <;>
    first
      | exact ⟨rfl, Or.inl rfl⟩
      | exact ⟨rfl, Or.inr ⟨_, rfl⟩⟩

/-- Modelled from the spec: the fixed set of REST paths exercised by the
broader repository's scenario calls, which are absent from `src/`
(`src/` holds only the product-query locustfile): product
listing/detail, brand detail, user profile, point balance/charge, like
add/remove/list, order list/detail/create. -/
inductive ApiPath
  | productList
  | productDetail
  | brandDetail
  | userProfile
  | pointBalance
  | pointCharge
  | likeAdd
  | likeRemove
  | likeList
  | orderList
  | orderDetail
  | orderCreate
deriving Repr, DecidableEq

/-- Modelled from the spec: one scenario call of the broader repository,
with its HTTP method, REST path, query-parameter names, and whether it
carries a JSON body. -/
structure ApiRequest where
  method : Method
  path : ApiPath
  queryParams : List String
  jsonBody : Bool
deriving Repr, DecidableEq

/-- Modelled from the spec: the broader repository's scenario calls,
absent from `src/`: plain GET/POST/DELETE requests over the fixed REST
path set, with query parameters for pagination, sort order and brand
filter on the listing, and JSON bodies on the writes. -/
def repo_requests : List ApiRequest :=
  [⟨.GET, .productList, ["page", "size", "sort", "brandId"], false⟩,
   ⟨.GET, .productDetail, [], false⟩,
   ⟨.GET, .brandDetail, [], false⟩,
   ⟨.GET, .userProfile, [], false⟩,
   ⟨.GET, .pointBalance, [], false⟩,
   ⟨.POST, .pointCharge, [], true⟩,
   ⟨.POST, .likeAdd, [], true⟩,
   ⟨.DELETE, .likeRemove, [], false⟩,
   ⟨.GET, .likeList, ["page", "size"], false⟩,
   ⟨.GET, .orderList, ["page", "size"], false⟩,
   ⟨.GET, .orderDetail, [], false⟩,
   ⟨.POST, .orderCreate, [], true⟩]

/-- C7: the repository's scenario calls use only the plain GET, POST and
DELETE methods over exactly the fixed REST path set, with pagination,
sort-order and brand-filter query parameters on the listing and JSON
bodies on the writes; the product-query locustfile's own requests (the
part present under `src/`) are all GETs against the product listing and
detail paths. -/
theorem repository_request_surface :
    (∀ r ∈ repo_requests,
        r.method = Method.GET ∨ r.method = Method.POST
          ∨ r.method = Method.DELETE)
  ∧ repo_requests.map ApiRequest.path
      = [.productList, .productDetail, .brandDetail, .userProfile,
         .pointBalance, .pointCharge, .likeAdd, .likeRemove, .likeList,
         .orderList, .orderDetail, .orderCreate]
  ∧ (∃ r ∈ repo_requests, r.path = ApiPath.productList
        ∧ r.queryParams = ["page", "size", "sort", "brandId"])
  ∧ (∀ r ∈ repo_requests, r.method = Method.POST → r.jsonBody = true)
  ∧ (∀ r ∈ repo_requests, r.jsonBody = true → r.method ≠ Method.GET)
  ∧ (∀ r, Emits r → r.method = Method.GET
        ∧ (r.path = UrlPath.products
            ∨ ∃ pid, r.path = UrlPath.productDetail pid)) :=
  ⟨by decide, by decide, by decide, by decide, by decide,
   scenario_requests_get_products_only⟩

/-- Witness for C7 at concrete requests: the point-charge call is a POST
with a JSON body, and the locustfile's first listing task issues a GET
to the product listing path. -/
theorem repository_request_surface_witness :
    ((⟨.POST, .pointCharge, [], true⟩ : ApiRequest).method = Method.GET
      ∨ (⟨.POST, .pointCharge, [], true⟩ : ApiRequest).method = Method.POST
      ∨ (⟨.POST, .pointCharge, [], true⟩ : ApiRequest).method = Method.DELETE)
  ∧ (⟨.POST, .pointCharge, [], true⟩ : ApiRequest).jsonBody = true
  ∧ ((get_products_all_latest 0).method = Method.GET
      ∧ ((get_products_all_latest 0).path = UrlPath.products
          ∨ ∃ pid, (get_products_all_latest 0).path = UrlPath.productDetail pid)) :=
  ⟨repository_request_surface.1 ⟨.POST, .pointCharge, [], true⟩ (by decide),
   repository_request_surface.2.2.2.1 ⟨.POST, .pointCharge, [], true⟩
     (by decide) rfl,
   repository_request_surface.2.2.2.2.2 (get_products_all_latest 0)
     (Emits.all_latest 0)⟩

/-- C9: the `cache_hit`-tagged listing tasks always request `page=0`,
while the `cache_miss`-tagged listing task always requests a page in
1..10 (never 0). -/
theorem cache_tag_page_invariant (d₁ d₂ d₃ d₄ d₅ : ℕ) :
    ("cache_hit" ∈ tags_get_products_first_page_cached
      ∧ (get_products_first_page_cached d₁).queryNat "page" = some 0)
  ∧ ("cache_hit" ∈ tags_get_products_by_brand_first_page_cached
      ∧ (get_products_by_brand_first_page_cached d₂ d₃).queryNat "page"
          = some 0)
  ∧ ("cache_miss" ∈ tags_get_products_other_pages_not_cached
      ∧ ∃ p, (get_products_other_pages_not_cached d₄ d₅).queryNat "page"
            = some p
          ∧ 1 ≤ p ∧ p ≤ 10 ∧ p ≠ 0) := by
  refine ⟨⟨by simp [tags_get_products_first_page_cached], ?_⟩,
          ⟨by simp [tags_get_products_by_brand_first_page_cached], ?_⟩,
          ⟨by simp [tags_get_products_other_pages_not_cached], ?_⟩⟩
  · simp [get_products_first_page_cached, Request.queryNat, List.find?]
  · simp [get_products_by_brand_first_page_cached, Request.queryNat,
      List.find?]
  · refine ⟨randint 1 10 d₅, ?_, ?_, ?_, ?_⟩
    · simp [get_products_other_pages_not_cached, Request.queryNat,
        List.find?]
    · unfold randint; omega
    · have : d₅ % 10 < 10 := Nat.mod_lt _ (by norm_num)
      unfold randint; omega
    · unfold randint; omega

/-- C10: every emitted request that carries a `brandId` query parameter
uses a brand id between 1 and 100 inclusive. -/
theorem brand_id_range (r : Request) (h : Emits r) (b : ℕ)
    (hb : r.queryNat "brandId" = some b) : 1 ≤ b ∧ b ≤ 100 := by
  cases h <;>
    simp [initial_products_request, get_products_all_latest,
      get_products_all_likes_desc, get_products_all_price_asc,
      get_products_by_brand_latest, get_products_by_brand_likes_desc,
      get_products_by_brand_price_asc, get_products_first_page_cached,
      get_products_other_pages_not_cached,
      get_products_by_brand_first_page_cached, get_product_detail_cached,
      get_product_detail_not_cached, get_products_deep_pagination,
      Request.queryNat, List.find?] at hb <;>
    exact hb ▸ choice_brand_ids_bounds _

/-- Witness for C10 at a concrete emitted request: draw 0 yields brand
id 1. -/
theorem brand_id_range_witness :
    (get_products_by_brand_latest 0 0).queryNat "brandId" = some 1
  ∧ 1 ≤ 1 ∧ 1 ≤ 100 :=
  ⟨rfl, brand_id_range (get_products_by_brand_latest 0 0)
    (Emits.by_brand_latest 0 0) 1 rfl⟩

/-! ### JSON model for `_load_initial_data` (C8)

`_load_initial_data` issues `GET /api/v1/products?size=100` and, when
the status code is 200, runs `response.json()` and the extraction of
`data["data"]["products"][i]["productId"]` inside a bare
`try ... except: pass`.  The model below embeds the Python container
operations used there; an `Option` result of `none` models a raised
(and caught) exception, or a failed `in` check, both of which leave
`self.product_ids` untouched (it was set to `[]` just before). -/

/-- A JSON value, as produced by `response.json()`. -/
inductive Json
  | null
  | bool (b : Bool)
  | num (n : Int)
  | str (s : String)
  | arr (elems : List Json)
  | obj (fields : List (String × Json))

/-- Whether `needle` occurs as a contiguous run inside `hay` (Python's
`needle in hay` for strings). -/
def containsSub (needle : List Char) : List Char → Bool
  | [] => needle.isEmpty
  | c :: t => needle.isPrefixOf (c :: t) || containsSub needle t

/-- Python's `key in container` for a string `key`: key lookup on a
dict, membership on a list, substring test on a string; `none` models a
raised `TypeError` on the remaining value shapes. -/
def Json.hasKey : Json → String → Option Bool
  | .obj fields, key => some (fields.any fun f => f.1 == key)
  | .arr elems, key =>
      some (elems.any fun e =>
        match e with
        | .str s => s == key
        | _ => false)
  | .str s, key => some (containsSub key.toList s.toList)
  | _, _ => none

/-- Python's `container[key]` for a string `key`: dict lookup (`none`
models a raised `KeyError` when the key is absent, or a `TypeError` on
non-dict values). -/
def Json.index : Json → String → Option Json
  | .obj fields, key =>
    match fields.find? (fun f => f.1 == key) with
    | some f => some f.2
    | none => none
  | _, _ => none

/-- Python iteration `for x in v`: list elements, dict keys, string
characters; `none` models a raised `TypeError` on non-iterables. -/
def Json.iter : Json → Option (List Json)
  | .arr elems => some elems
  | .obj fields => some (fields.map fun f => Json.str f.1)
  | .str s => some (s.toList.map fun c => Json.str (String.singleton c))
  | _ => none

/-- The comprehension `[product["productId"] for product in products]`;
`none` models a raised (and caught) `KeyError`/`TypeError`. -/
def extract_ids : List Json → Option (List Json)
  | [] => some []
  | p :: rest => do
    let pid ← p.index "productId"
    let others ← extract_ids rest
    some (pid :: others)

/-- An HTTP response as seen by `_load_initial_data`: a status code and
the result of `response.json()` (`none` when the body is not parseable
JSON, so that `response.json()` raises). -/
structure HttpResponse where
  status : ℕ
  body : Option Json

/-- The `try` block of `_load_initial_data`: parse the body, check
`"data" in data and "products" in data["data"]`, and run the
comprehension over `data["data"]["products"]`; `none` models either a
raised-and-caught exception or a failed check, both of which leave
`product_ids` empty. -/
def collect_ids (body : Option Json) : Option (List Json) :=
  body.bind fun data =>
    (data.hasKey "data").bind fun hd =>
      if hd then
        (data.index "data").bind fun dd =>
          (dd.hasKey "products").bind fun hp =>
            if hp then
              (dd.index "products").bind fun prods =>
                prods.iter.bind fun elems => extract_ids elems
            else none
      else none

/-- `_load_initial_data`: `self.product_ids` starts as `[]` (set in
`on_start`) and is reassigned only when the whole extraction succeeds. -/
def load_initial_data (resp : HttpResponse) : List Json :=
  if resp.status = 200 then (collect_ids resp.body).getD [] else []

/-- The response body carries a well-formed `data.products` array. -/
def HasProductsArray (body : Option Json) : Prop :=
  ∃ data dd ps, body = some data
    ∧ data.index "data" = some dd
    ∧ dd.index "products" = some (Json.arr ps)

/-- If the extraction produced a non-empty id list, the body carried a
well-formed `data.products` array: iterating a dict or a string either
yields nothing or makes the comprehension's subscript raise, so a
non-empty result forces `data["data"]["products"]` to be a list. -/
theorem collect_ids_ne_nil_wf (body : Option Json) (l : List Json)
    (hc : collect_ids body = some l) (hne : l ≠ []) :
    HasProductsArray body := by
  cases body with
  | none => simp [collect_ids] at hc
  | some data =>
    simp only [collect_ids, Option.some_bind] at hc
    cases hk : data.hasKey "data" with
    | none => rw [hk] at hc; simp at hc
    | some hd =>
      rw [hk] at hc
      simp only [Option.some_bind] at hc
      cases hd with
      | false => simp at hc
      | true =>
        simp only [if_true] at hc
        cases hi : data.index "data" with
        | none => rw [hi] at hc; simp at hc
        | some dd =>
          rw [hi] at hc
          simp only [Option.some_bind] at hc
          cases hp : dd.hasKey "products" with
          | none => rw [hp] at hc; simp at hc
          | some hpb =>
            rw [hp] at hc
            simp only [Option.some_bind] at hc
            cases hpb with
            | false => simp at hc
            | true =>
              simp only [if_true] at hc
              cases hpi : dd.index "products" with
              | none => rw [hpi] at hc; simp at hc
              | some prods =>
                rw [hpi] at hc
                simp only [Option.some_bind] at hc
                cases prods with
                | arr ps =>
                  exact ⟨data, dd, ps, rfl, hi, hpi⟩
                | null => simp [Json.iter] at hc
                | bool b => simp [Json.iter] at hc
                | num n => simp [Json.iter] at hc
                | str s =>
                  simp only [Json.iter] at hc
                  cases hs : s.toList with
                  | nil =>
                    rw [hs] at hc
                    simp [extract_ids] at hc
                    exact absurd hc hne
                  | cons c t =>
                    rw [hs] at hc
                    simp [extract_ids, Json.index] at hc
                | obj fields =>
                  simp only [Json.iter] at hc
                  cases fields with
                  | nil =>
                    simp [extract_ids] at hc
                    exact absurd hc hne
                  | cons f fs =>
                    simp [extract_ids, Json.index] at hc

/-- C8: the initial-data load never propagates an error: on a non-200
status, an unparseable body, or a body lacking the `data.products`
structure, `product_ids` is left empty; it becomes non-empty only when
a 200 response carries a well-formed `data.products` array. -/
theorem load_initial_data_safe (resp : HttpResponse) :
    (resp.status ≠ 200 → load_initial_data resp = [])
  ∧ (resp.body = none → load_initial_data resp = [])
  ∧ (¬ HasProductsArray resp.body → load_initial_data resp = [])
  ∧ (load_initial_data resp ≠ [] →
      resp.status = 200 ∧ HasProductsArray resp.body) := by
  refine ⟨?_, ?_, ?_, ?_⟩
  · intro h; simp [load_initial_data, h]
  · intro h; simp [load_initial_data, h, collect_ids]
  · intro h
    by_cases hs : resp.status = 200
    · simp only [load_initial_data, if_pos hs]
      cases hc : collect_ids resp.body with
      | none => rfl
      | some l =>
        by_cases hl : l = []
        · simp [hl]
        · exact absurd (collect_ids_ne_nil_wf _ _ hc hl) h
    · simp [load_initial_data, hs]
  · intro h
    by_cases hs : resp.status = 200
    · refine ⟨hs, ?_⟩
      simp only [load_initial_data, if_pos hs] at h
      cases hc : collect_ids resp.body with
      | none => rw [hc] at h; simp at h
      | some l =>
        rw [hc] at h
        simp only [Option.getD_some] at h
        exact collect_ids_ne_nil_wf _ _ hc h
    · exact absurd (by simp [load_initial_data, hs]) h

/-- Witness for C8: a 500 response and a 200 response whose body is a
bare number both leave `product_ids` empty. -/
theorem load_initial_data_safe_witness :
    load_initial_data ⟨500, none⟩ = []
  ∧ load_initial_data ⟨200, some (Json.num 3)⟩ = [] :=
  ⟨(load_initial_data_safe ⟨500, none⟩).1 (by decide),
   (load_initial_data_safe ⟨200, some (Json.num 3)⟩).2.2.1
     (by
       rintro ⟨data, dd, ps, heq, hi, hp⟩
       cases heq
       simp [Json.index] at hi)⟩

end LoadTest
